import Mathlib

/-!
Shallow embedding of the core of the `calgo` command-line calendar client:
OAuth2 token validity and the `GetToken` decision flow (internal/auth),
the interactive authorization flow's state parameter, the loopback
callback handler, event validation and submission, provider error
wrapping (internal/calendar/client.go), timezone resolution, the staged
date/time parser, and the duration parser (internal/calendar datetime
parsing).  External effects (file system, network, the flexible
`dateparse` library, `time.LoadLocation`) are modelled as explicit
oracle parameters; everything whose control flow lives in the repository
is translated directly from the Go source.
-/

namespace Calgo

/-! ## OAuth2 token model (golang.org/x/oauth2 `Token` as used by `auth.GetToken`) -/

/-- A persisted OAuth2 token, as stored in the token file
(`access_token`, `refresh_token`, `token_type`, `expiry`).
`expiry` is an instant in seconds; the value `0` encodes Go's zero
`time.Time` (the expiry that results from a token file with no
`expiry` field). -/
structure Token where
  accessToken : String
  refreshToken : String
  tokenType : String
  expiry : Int
  deriving Repr, DecidableEq

/-- `defaultExpiryDelta` of golang.org/x/oauth2: a token is considered
expired this many seconds before its nominal expiry. -/
def expiryDelta : Int := 10

/-- golang.org/x/oauth2 `Token.expired`: a token with a zero expiry
never expires; otherwise it is expired once `expiry - expiryDelta` is
strictly before the current time. -/
def Token.isExpired (t : Token) (now : Int) : Bool :=
  if t.expiry = 0 then false
  else decide (t.expiry - expiryDelta < now)

/-- golang.org/x/oauth2 `Token.Valid`: non-empty access token and not
expired.  (The Go receiver nil check is vacuous here: `loadToken`
returns a non-nil token whenever it succeeds.) -/
def Token.valid (t : Token) (now : Int) : Bool :=
  !(t.accessToken == "") && !(t.isExpired now)

/-- Outcome of `Authenticator.GetToken`, distinguishing which path
produced the token (or which path failed). -/
inductive GetTokenResult where
  | credsError
  | cached (t : Token)
  | refreshed (t : Token)
  | authenticated (t : Token)
  | authFailed
  deriving Repr, DecidableEq

/-- `Authenticator.GetToken`.  `configLoaded` is whether `a.config` is
already non-nil and `loadCredsOK` is the outcome of `LoadCredentials`
when it has to run.  `stored` is the result of `loadToken` (`none` when
the token file is missing or unparsable).  The refresh network call and
the interactive flow are oracles receiving `ctxCancelled`, the state of
the caller-supplied context: the cached-token branch consults neither
oracle and never looks at the context. -/
def getToken (configLoaded loadCredsOK : Bool)
    (stored : Option Token) (now : Int) (ctxCancelled : Bool)
    (refresh : Bool → Token → Option Token)
    (authFlow : Bool → Option Token) : GetTokenResult :=
  if !configLoaded && !loadCredsOK then .credsError
  else
    match stored with
    | some t =>
      if t.valid now then .cached t
      else
        match refresh ctxCancelled t with
        | some t2 => .refreshed t2
        | none =>
          match authFlow ctxCancelled with
          | some t3 => .authenticated t3
          | none => .authFailed
    | none =>
      match authFlow ctxCancelled with
      | some t3 => .authenticated t3
      | none => .authFailed

/-! ## Interactive authorization flow: the state parameter -/

/-- The literal state argument `authenticate` passes to
`oauth2.Config.AuthCodeURL`. -/
def oauthStateArg : String := "state-token"

/-- The per-run data `authenticate` feeds into the authorization URL:
the redirect URL derived from the callback listener's bound port, and
the state value.  The function takes no source of randomness because
the source consumes none. -/
structure AuthFlowRun where
  redirectURL : String
  state : String
  deriving Repr, DecidableEq

/-- One run of `authenticate` up to the construction of the
authorization URL: sets `RedirectURL` from the bound port and passes
the fixed `oauthStateArg` as the state. -/
def authenticateRun (port : Nat) : AuthFlowRun :=
  { redirectURL := "http://localhost:" ++ toString port
  , state := oauthStateArg }

/-! ## Loopback callback handler (`startCallbackServer`) -/

/-- An inbound request to the callback listener, identified by its two
relevant query parameters.  `none` means the parameter is absent from
the query string; `some v` means it is present with value `v`. -/
structure CallbackRequest where
  code : Option String
  error : Option String
  deriving Repr, DecidableEq

/-- `url.Values.Get`: the first value of the parameter, or the empty
string when the parameter is absent. -/
def queryGet (v : Option String) : String := v.getD ""

/-- What the handler delivers on the channel pair. -/
inductive Delivered where
  | code (c : String)
  | err (msg : String)
  deriving Repr, DecidableEq

/-- The observable effect of one callback request: the channel message,
the HTTP status, and the Content-Type of the response. -/
structure CallbackResult where
  delivered : Delivered
  status : Nat
  contentType : String
  deriving Repr, DecidableEq

/-- The handler registered by `startCallbackServer`: an empty `code`
lookup routes to the error path (taking `error`, defaulting to the
literal message) with `http.Error`'s 400 plain-text response; a
non-empty `code` is sent on the success channel with a 200 HTML page. -/
def handleCallback (r : CallbackRequest) : CallbackResult :=
  let code := queryGet r.code
  if code == "" then
    let errMsg := queryGet r.error
    let errMsg := if errMsg == "" then "no authorization code received" else errMsg
    { delivered := .err errMsg
      status := 400
      contentType := "text/plain; charset=utf-8" }
  else
    { delivered := .code code
      status := 200
      contentType := "text/html" }

/-! ## Calendar client: event validation, submission, and error wrapping -/

/-- `calendar.EventParams`.  `startTime` is an instant; the value `0`
encodes Go's zero `time.Time` (`StartTime.IsZero()`).  `duration` is a
span in nanoseconds (`time.Duration`). -/
structure EventParams where
  title : String
  startTime : Int
  duration : Int
  description : String
  location : String
  deriving Repr, DecidableEq

/-- The typed error values of `internal/calendar` with their rendered
messages (`fmt.Errorf("%w: ...")` prepends the base error's text). -/
inductive CalendarErrKind where
  | eventCreationFailed
  | invalidEventTime
  | calendarNotFound
  | permissionDenied
  | quotaExceeded
  deriving Repr, DecidableEq

/-- A wrapped calendar error: the base typed error plus the full
rendered message. -/
structure CalendarError where
  kind : CalendarErrKind
  message : String
  deriving Repr, DecidableEq

/-- `validateEventParams`: title non-empty, start time non-zero,
duration strictly positive, checked in that order; the first failing
check wins and wraps `ErrInvalidEventTime` ("invalid event time") with
a field-specific message. -/
def validateEventParams (p : EventParams) : Option CalendarError :=
  if p.title == "" then
    some ⟨.invalidEventTime, "invalid event time: title is required"⟩
  else if p.startTime == 0 then
    some ⟨.invalidEventTime, "invalid event time: start time is required"⟩
  else if p.duration ≤ 0 then
    some ⟨.invalidEventTime, "invalid event time: duration must be positive"⟩
  else none

/-- The event body `CreateEvent` submits to the provider, with start
and end as instants. -/
structure SubmittedEvent where
  summary : String
  description : String
  location : String
  start : Int
  finish : Int
  deriving Repr, DecidableEq

/-- What `CreateEvent` does before touching the network: either it
returns the validation error (no network call is issued), or it builds
the event with `end = start + duration` and submits it. -/
inductive CreateEventAction where
  | validationError (e : CalendarError)
  | submit (ev : SubmittedEvent)
  deriving Repr, DecidableEq

/-- The request-side half of `Client.CreateEvent`: validate, then build
the event with `endTime := params.StartTime.Add(params.Duration)`. -/
def createEventRequest (p : EventParams) : CreateEventAction :=
  match validateEventParams p with
  | some e => .validationError e
  | none =>
    .submit { summary := p.title
              description := p.description
              location := p.location
              start := p.startTime
              finish := p.startTime + p.duration }

/-- A reason-tagged sub-error of a structured `googleapi.Error`. -/
structure SubError where
  reason : String
  deriving Repr, DecidableEq

/-- A structured `googleapi.Error`: HTTP status code, message, and the
list of reason-tagged sub-errors. -/
structure GoogleAPIError where
  code : Int
  message : String
  errors : List SubError
  deriving Repr, DecidableEq

/-- The error `CreateEvent` gets back from the provider call: either a
structured API error (`errors.As` succeeds) or a transport-level error
carrying only a message. -/
inductive ProviderError where
  | api (e : GoogleAPIError)
  | transport (msg : String)
  deriving Repr, DecidableEq

/-- `containsQuotaError`: whether any sub-error reason indicates
quota or rate limiting. -/
def containsQuotaError (e : GoogleAPIError) : Bool :=
  e.errors.any fun s =>
    s.reason == "quotaExceeded" || s.reason == "rateLimitExceeded" ||
      s.reason == "userRateLimitExceeded"

/-- `wrapAPIError`: the status-code-keyed mapping from provider errors
to the typed calendar errors, with the exact rendered messages. -/
def wrapAPIError : ProviderError → CalendarError
  | .api e =>
    if e.code = 400 then
      ⟨.eventCreationFailed, "failed to create event: invalid request - " ++ e.message⟩
    else if e.code = 401 then
      ⟨.permissionDenied, "permission denied: authentication expired, please re-authenticate"⟩
    else if e.code = 403 then
      if containsQuotaError e then
        ⟨.quotaExceeded, "API quota exceeded: please try again later"⟩
      else
        ⟨.permissionDenied,
          "permission denied: you don\x27t have permission to access this calendar"⟩
    else if e.code = 404 then
      ⟨.calendarNotFound, "calendar not found: check that the calendar ID is correct"⟩
    else if e.code = 429 then
      ⟨.quotaExceeded, "API quota exceeded: too many requests, please try again later"⟩
    else
      ⟨.eventCreationFailed,
        "failed to create event: " ++ e.message ++ " (code: " ++ toString e.code ++ ")"⟩
  | .transport msg => ⟨.eventCreationFailed, "failed to create event: " ++ msg⟩

/-! ## Timezone resolution (`getLocation`) -/

/-- A resolved `time.Location`, identified by its zone name. -/
structure Location where
  name : String
  deriving Repr, DecidableEq

/-- Errors of the date/time parsing layer, carrying the full rendered
message (`ErrInvalidDateFormat` renders as "invalid date/time format",
`ErrInvalidTimezone` as "invalid timezone"). -/
inductive TimeParseError where
  | invalidFormat (message : String)
  | invalidTimezone (message : String)
  deriving Repr, DecidableEq

/-- `getLocation`: strict three-stage priority.  `loadLocation` is the
`time.LoadLocation` oracle (`none` when the name is unrecognized),
`tzEnv` the value of the `TZ` environment variable (`""` when unset),
and `localZone` the system local timezone (`time.Local`). -/
def getLocation (loadLocation : String → Option Location)
    (tzEnv : String) (localZone : Location)
    (timezone : String) : Except TimeParseError Location :=
  if !(timezone == "") then
    match loadLocation timezone with
    | some loc => .ok loc
    | none => .error (.invalidTimezone ("invalid timezone: " ++ timezone))
  else if !(tzEnv == "") then
    match loadLocation tzEnv with
    | some loc => .ok loc
    | none =>
      .error (.invalidTimezone
        ("invalid timezone: " ++ tzEnv ++ " (from TZ environment variable)"))
  else .ok localZone

/-! ## String helpers mirroring the Go standard library -/

/-- `unicode.IsSpace` restricted to Latin-1 (the range `strings.TrimSpace`
fast-paths; the inputs of interest are ASCII). -/
def isGoSpace (c : Char) : Bool :=
  c == ' ' || c == '\t' || c == '\n' || c == '\x0b' || c == '\x0c' ||
    c == '\r' || c == '\x85' || c == '\xa0'

/-- `strings.TrimSpace`. -/
def goTrimSpace (s : String) : String :=
  ⟨((s.data.dropWhile isGoSpace).reverse.dropWhile isGoSpace).reverse⟩

/-- `strings.ToLower` on ASCII letters (the relative-format keywords). -/
def goToLower (s : String) : String :=
  ⟨s.data.map Char.toLower⟩

/-- The whitespace class of Go's regexp `\s`: `[\t\n\f\r ]`. -/
def isSpaceRE (c : Char) : Bool :=
  c == ' ' || c == '\t' || c == '\n' || c == '\x0c' || c == '\r'

/-- `strings.HasPrefix`. -/
def strStarts (s pre : String) : Bool :=
  s.data.take pre.data.length == pre.data

/-- Numeric value of a string of decimal digits (`strconv.Atoi` on an
all-digit string). -/
def digitsVal (l : List Char) : Nat :=
  l.foldl (fun a c => a * 10 + (c.toNat - '0'.toNat)) 0

/-- `strconv.Atoi`: optional sign, then at least one digit and nothing
else; errors when the value does not fit a 64-bit int. -/
def goAtoi (s : String) : Option Int :=
  let l := s.data
  if l.isEmpty then none
  else
    let neg : Bool := l.headD ' ' == '-'
    let ds := if l.headD ' ' == '-' || l.headD ' ' == '+' then l.drop 1 else l
    if ds.isEmpty || !(ds.all Char.isDigit) then none
    else
      let v : Int := (digitsVal ds : Nat)
      let v := if neg then -v else v
      if v < -(2 ^ 63) || 2 ^ 63 - 1 < v then none else some v

/-! ## The relative / time-only pattern matchers

The three regular expressions of the source are anchored at both ends
and every quantifier is followed by a character outside its own class,
so greedy maximal-munch matching (takeWhile/dropWhile) is equivalent to
the regexp engine's backtracking search; the matchers below exploit
that. -/

/-- The time-of-day tail shared by `timeOnlyRegex` and `dayTimeRegex`:
`(\d{1,2}):(\d{2})(?::(\d{2}))?$`, returning the hour, minute and
optional second as numbers. -/
def hmsMatch (l : List Char) : Option (Nat × Nat × Option Nat) :=
  let h := l.takeWhile Char.isDigit
  let r1 := l.dropWhile Char.isDigit
  if h.length = 0 || 2 < h.length then none
  else
    match r1 with
    | ':' :: r2 =>
      let m := r2.takeWhile Char.isDigit
      let r3 := r2.dropWhile Char.isDigit
      if !(m.length = 2) then none
      else
        match r3 with
        | [] => some (digitsVal h, digitsVal m, none)
        | ':' :: r4 =>
          let sec := r4.takeWhile Char.isDigit
          let r5 := r4.dropWhile Char.isDigit
          if sec.length = 2 && r5.isEmpty then
            some (digitsVal h, digitsVal m, some (digitsVal sec))
          else none
        | _ => none
    | _ => none

/-- `timeOnlyRegex`: `^(\d{1,2}):(\d{2})(?::(\d{2}))?$`. -/
def timeOnlyMatch (s : String) : Option (Nat × Nat × Option Nat) :=
  hmsMatch s.data

/-- The `\s*(?:at\s+)?` middle of `dayTimeRegex`: skip spaces, then an
optional literal `at` that must be followed by at least one space. -/
def afterDayKeyword (l : List Char) : List Char :=
  let r := l.dropWhile isSpaceRE
  match r with
  | 'a' :: 't' :: r2 =>
    if (r2.takeWhile isSpaceRE).length ≥ 1 then r2.dropWhile isSpaceRE else r
  | _ => r

/-- `dayTimeRegex`:
`^(?:today|tomorrow)\s*(?:at\s+)?(\d{1,2}):(\d{2})(?::(\d{2}))?$`. -/
def dayTimeMatch (s : String) : Option (Nat × Nat × Option Nat) :=
  let l := s.data
  if l.take 5 = "today".data then hmsMatch (afterDayKeyword (l.drop 5))
  else if l.take 8 = "tomorrow".data then hmsMatch (afterDayKeyword (l.drop 8))
  else none

/-- `inDurationRegex`: `^in\s+(\d+)\s*(hours?|minutes?|mins?|hrs?)$`,
returning the amount and the matched unit text. -/
def inDurationMatch (s : String) : Option (Nat × String) :=
  match s.data with
  | 'i' :: 'n' :: rest =>
    if (rest.takeWhile isSpaceRE).length = 0 then none
    else
      let r1 := rest.dropWhile isSpaceRE
      let ds := r1.takeWhile Char.isDigit
      if ds.length = 0 then none
      else
        let unit : String := ⟨(r1.dropWhile Char.isDigit).dropWhile isSpaceRE⟩
        if unit == "hour" || unit == "hours" || unit == "minute" ||
            unit == "minutes" || unit == "min" || unit == "mins" ||
            unit == "hr" || unit == "hrs" then
          some (digitsVal ds, unit)
        else none
  | _ => none

/-! ## The staged time parser (`ParseTime`) -/

/-- The clock- and calendar-dependent operations a parse stage can
perform, for the current instant taken in one resolved location.
`addToNow` is `now.Add(d)` with `d` in seconds; `atDayOffset off h m s`
is `time.Date` on the date `now.AddDate(0, 0, off)` at the given
time of day.  `T` is the resulting instant type; the parser's control
flow never inspects it. -/
structure TimeModel (T : Type) where
  addToNow : Int → T
  atDayOffset : Nat → Nat → Nat → Nat → T

/-- `parseInDuration`: dispatch on the matched unit text
(`hour`/`hr` prefixes are hours, `min` prefix is minutes). -/
def parseInDuration {T : Type} (tm : TimeModel T) (input : String) : Option T :=
  match inDurationMatch input with
  | none => none
  | some (amount, unit) =>
    if strStarts unit "hour" || strStarts unit "hr" then
      some (tm.addToNow ((amount : Int) * 3600))
    else if strStarts unit "min" then
      some (tm.addToNow ((amount : Int) * 60))
    else none

/-- `parseDayWithTime`: match `dayTimeRegex`, range-check the fields
(hour 0–23, minute/second 0–59; the values are naturally non-negative),
and build the instant at the given day offset. -/
def parseDayWithTime {T : Type} (tm : TimeModel T) (input : String)
    (daysOffset : Nat) : Option T :=
  match dayTimeMatch input with
  | none => none
  | some (h, m, osec) =>
    if 23 < h then none
    else if 59 < m then none
    else
      match osec with
      | none => some (tm.atDayOffset daysOffset h m 0)
      | some sec =>
        if 59 < sec then none else some (tm.atDayOffset daysOffset h m sec)

/-- `parseRelative`: lowercase the input, then try the `in …` form,
the `today …` form, and the `tomorrow …` form, each guarded by the
prefix check of the source. -/
def parseRelative {T : Type} (tm : TimeModel T) (input : String) : Option T :=
  let input := goToLower input
  match (if strStarts input "in " then parseInDuration tm input else none) with
  | some t => some t
  | none =>
    match (if strStarts input "today" then parseDayWithTime tm input 0 else none) with
    | some t => some t
    | none =>
      if strStarts input "tomorrow" then parseDayWithTime tm input 1 else none

/-- `parseTimeOnly`: match `timeOnlyRegex`, range-check, and build the
instant for today at that time of day. -/
def parseTimeOnly {T : Type} (tm : TimeModel T) (input : String) : Option T :=
  match timeOnlyMatch input with
  | none => none
  | some (h, m, osec) =>
    if 23 < h then none
    else if 59 < m then none
    else
      match osec with
      | none => some (tm.atDayOffset 0 h m 0)
      | some sec =>
        if 59 < sec then none else some (tm.atDayOffset 0 h m sec)

/-- The ordered fallback layout list of `parseStandard`. -/
def standardLayouts : List String :=
  ["2006-01-02T15:04:05", "2006-01-02T15:04",
   "2006-01-02 15:04:05", "2006-01-02 15:04",
   "2006/01/02 15:04:05", "2006/01/02 15:04",
   "01/02/2006 15:04:05", "01/02/2006 15:04",
   "02/01/2006 15:04:05", "02/01/2006 15:04",
   "Jan 2, 2006 15:04:05", "Jan 2, 2006 15:04",
   "January 2, 2006 15:04:05", "January 2, 2006 15:04",
   "2006-01-02"]

/-- First layout of the list that parses the input, via the
`time.ParseInLocation` oracle. -/
def firstLayout {T : Type}
    (parseInLocation : String → String → Location → Option T) :
    List String → String → Location → Option T
  | [], _, _ => none
  | f :: fs, input, loc =>
    match parseInLocation f input loc with
    | some t => some t
    | none => firstLayout parseInLocation fs input loc

/-- The `could not parse` message of `parseStandard`, carrying the
original input. -/
def couldNotParseMsg (input : String) : String :=
  "invalid date/time format: could not parse \x27" ++ input ++
    "\x27. Try formats like \x272024-01-15 14:00\x27, \x2714:00\x27, " ++
    "\x27tomorrow 14:00\x27, or \x27in 2 hours\x27"

/-- `parseStandard`: the `dateparse.ParseIn` oracle first, then the
fixed layout list, then the `InvalidFormat` error echoing the input. -/
def parseStandard {T : Type}
    (dateparseIn : String → Location → Option T)
    (parseInLocation : String → String → Location → Option T)
    (input : String) (loc : Location) : Except TimeParseError T :=
  match dateparseIn input loc with
  | some t => .ok t
  | none =>
    match firstLayout parseInLocation standardLayouts input loc with
    | some t => .ok t
    | none => .error (.invalidFormat (couldNotParseMsg input))

/-- `ParseTime`: trim, reject empty input, resolve the location, then
try the stages in order — relative, time-only, standard — first match
wins.  `tm loc` is the clock model for the current instant in `loc`. -/
def ParseTime {T : Type} (tm : Location → TimeModel T)
    (dateparseIn : String → Location → Option T)
    (parseInLocation : String → String → Location → Option T)
    (loadLocation : String → Option Location)
    (tzEnv : String) (localZone : Location)
    (input timezone : String) : Except TimeParseError T :=
  let input := goTrimSpace input
  if input == "" then .error (.invalidFormat "invalid date/time format: empty input")
  else
    match getLocation loadLocation tzEnv localZone timezone with
    | .error e => .error e
    | .ok loc =>
      match parseRelative (tm loc) input with
      | some t => .ok t
      | none =>
        match parseTimeOnly (tm loc) input with
        | some t => .ok t
        | none => parseStandard dateparseIn parseInLocation input loc

/-! ## Duration parsing (`ParseDuration` and Go's `time.ParseDuration`) -/

/-- Nanoseconds per unit suffix, Go's `unitMap` (both micro-sign
spellings included). -/
def unitNanos (u : String) : Option Nat :=
  if u == "ns" then some 1
  else if u == "us" then some 1000
  else if u == "µs" then some 1000
  else if u == "μs" then some 1000
  else if u == "ms" then some 1000000
  else if u == "s" then some 1000000000
  else if u == "m" then some 60000000000
  else if u == "h" then some 3600000000000
  else none

/-- Two's-complement wrap-around of a 64-bit signed integer, the effect
of Go int64 arithmetic on an out-of-range mathematical value. -/
def wrapInt64 (x : Int) : Int :=
  (x + 2 ^ 63) % 2 ^ 64 - 2 ^ 63

/-- Go's `leadingInt` on the digit run of a chunk: the accumulated
value, with the stepwise uint64 overflow checks (fail before a step
that already exceeds `1 << 63 / 10`, and after a step whose result
exceeds `1 << 63`). -/
def leadingIntLoop : List Char → Nat → Option Nat
  | [], x => some x
  | c :: cs, x =>
    if 2 ^ 63 / 10 < x then none
    else
      let y := x * 10 + (c.toNat - '0'.toNat)
      if 2 ^ 63 < y then none
      else leadingIntLoop cs y

/-- Go's `leadingFraction` on the digit run after the dot: accumulates
value and accepted-digit count (the scale is ten to that count), and on
reaching the uint64 overflow bound silently ignores the remaining
digits instead of failing. -/
def leadingFractionLoop : List Char → Nat → Nat → Bool → Nat × Nat
  | [], x, k, _ => (x, k)
  | c :: cs, x, k, ov =>
    if ov then leadingFractionLoop cs x k true
    else if (2 ^ 63 - 1) / 10 < x then leadingFractionLoop cs x k true
    else
      let y := x * 10 + (c.toNat - '0'.toNat)
      if 2 ^ 63 < y then leadingFractionLoop cs x k true
      else leadingFractionLoop cs y (k + 1) false

/-- The chunk loop of Go's `time.ParseDuration`: each chunk is
`[0-9]*(\.[0-9]*)?unit` with at least one digit on one side of the dot
and a non-empty known unit.  The uint64 overflow checks of the source
are reproduced: `leadingIntLoop` failure, the pre-multiplication check
against `1 << 63 / unit`, the post-fraction check against `1 << 63`,
and the running-sum check against `1 << 63` (the summands are
non-negative, so checking the sum right-to-left rejects exactly the
inputs the left-to-right original rejects).  The fractional
contribution uses exact integer division where Go truncates a float64
product.  `fuel` bounds the recursion; every chunk consumes at least
one character, so the initial fuel `l.length` never runs out. -/
def parseDurChunks (fuel : Nat) (l : List Char) : Option Nat :=
  match fuel, l with
  | _, [] => some 0
  | 0, _ => none
  | fuel + 1, l =>
    let intDs := l.takeWhile Char.isDigit
    let r1 := l.dropWhile Char.isDigit
    let fracAndRest :=
      match r1 with
      | '.' :: r => (r.takeWhile Char.isDigit, r.dropWhile Char.isDigit)
      | _ => ([], r1)
    let fDs := fracAndRest.1
    let r2 := fracAndRest.2
    if intDs.length = 0 && fDs.length = 0 then none
    else
      match leadingIntLoop intDs 0 with
      | none => none
      | some v0 =>
        let fs := leadingFractionLoop fDs 0 0 false
        let u := r2.takeWhile fun c => !(c.isDigit || c == '.')
        let r3 := r2.dropWhile fun c => !(c.isDigit || c == '.')
        if u.length = 0 then none
        else
          match unitNanos ⟨u⟩ with
          | none => none
          | some unit =>
            if 2 ^ 63 / unit < v0 then none
            else
              let v1 := v0 * unit
              let v2 := if 0 < fs.1 then v1 + fs.1 * unit / 10 ^ fs.2 else v1
              if 0 < fs.1 && 2 ^ 63 < v2 then none
              else
                match parseDurChunks fuel r3 with
                | none => none
                | some rest =>
                  let d := v2 + rest
                  if 2 ^ 63 < d then none else some d

/-- Go's `time.ParseDuration`: optional sign, the special case `"0"`,
the chunk loop, then the final range handling — a negative total up to
`1 << 63` is negated (min int64 is representable), a non-negative total
above `1 << 63 - 1` is an error; result in nanoseconds. -/
def goParseDuration (s : String) : Option Int :=
  let l := s.data
  let signAndBody : Bool × List Char :=
    match l with
    | '-' :: r => (true, r)
    | '+' :: r => (false, r)
    | r => (false, r)
  let neg := signAndBody.1
  let body := signAndBody.2
  if body = ['0'] then some 0
  else if body.isEmpty then none
  else
    match parseDurChunks body.length body with
    | none => none
    | some d =>
      if neg then some (-(d : Int))
      else if 2 ^ 63 - 1 < d then none
      else some (d : Int)

/-- `calendar.ParseDuration`: trim, reject empty input, interpret a
bare `strconv.Atoi`-parsable integer as minutes — the product
`time.Duration(minutes) * time.Minute` is int64 multiplication and
wraps, hence `wrapInt64` — otherwise delegate to `time.ParseDuration`;
result in nanoseconds. -/
def ParseDuration (input : String) : Except String Int :=
  let input := goTrimSpace input
  if input == "" then .error "empty duration"
  else
    match goAtoi input with
    | some minutes => .ok (wrapInt64 (minutes * 60000000000))
    | none =>
      match goParseDuration input with
      | some d => .ok d
      | none =>
        .error ("invalid duration \x27" ++ input ++
          "\x27: use formats like \x2730m\x27, \x271h\x27, \x271h30m\x27, " ++
          "or just \x2730\x27 for minutes")

/-! ## Concrete instantiations used to evaluate the parser on closed
inputs -/

/-- A concrete clock model over `Int` instants: `addToNow` returns the
offset itself and `atDayOffset` encodes the fields as seconds. -/
def wClock : TimeModel Int where
  addToNow := fun d => d
  atDayOffset := fun off h m s => ((off * 86400 + h * 3600 + m * 60 + s : Nat) : Int)

/-- A concrete `time.LoadLocation` recognizing only the zone `UTC`. -/
def wLoad : String → Option Location :=
  fun s => if s == "UTC" then some ⟨"UTC"⟩ else none

/-- A flexible-parser oracle that never parses. -/
def wNoParse : String → Location → Option Int := fun _ _ => none

/-- A layout-parser oracle that never parses. -/
def wNoLayout : String → String → Location → Option Int := fun _ _ _ => none

/-! ## Theorems -/

/-- A digit character is not equal (as `==`) to any non-digit character. -/
theorem beq_eq_false_of_digit {c d : Char} (h : c.isDigit = true)
    (hd : d.isDigit = false) : (c == d) = false := by
  cases hb : c == d
  · rfl
  · rw [beq_iff_eq] at hb
    subst hb
    simp [h] at hd

/-- C1 (counterexample): a stored token with non-empty access token and
zero expiry is treated as VALID by `Token.valid` — although its expiry
(`0`) is not strictly in the future of the current time (`100`) — and
`getToken` does return it from the cache path, contrary to the claim
that such a token is treated as already expired; moreover a token whose
expiry (`105`) IS strictly in the future of the current time (`100`)
but within the `expiryDelta` margin is treated as invalid, against the
claimed `iff`. -/
theorem token_zeroExpiry_counterexample :
    Token.valid ⟨"a", "r", "Bearer", 0⟩ 100 = true ∧
    ¬ (100 < (Token.mk "a" "r" "Bearer" 0).expiry) ∧
    getToken true true (some ⟨"a", "r", "Bearer", 0⟩) 100 false
      (fun _ _ => none) (fun _ => none) = .cached ⟨"a", "r", "Bearer", 0⟩ ∧
    (100 : Int) < (Token.mk "a" "r" "Bearer" 105).expiry ∧
    Token.valid ⟨"a", "r", "Bearer", 105⟩ 100 = false :=
  ⟨by decide, by decide, rfl, by decide, by decide⟩

/-- C1 (amended): a stored token is returned by `getToken` from the
cache path (skipping refresh and the interactive flow) iff it is valid,
where valid means: non-empty access token AND (the expiry is zero — a
zero expiry never expires — OR the expiry is at least `expiryDelta`
seconds after the current time). -/
theorem token_cache_validity (t : Token) (now : Int) (cfg ld c : Bool)
    (refresh : Bool → Token → Option Token) (authFlow : Bool → Option Token)
    (hc : cfg = true ∨ ld = true) :
    (t.valid now = true ↔
      (¬ t.accessToken = "" ∧ (t.expiry = 0 ∨ now + expiryDelta ≤ t.expiry))) ∧
    (getToken cfg ld (some t) now c refresh authFlow = .cached t ↔
      t.valid now = true) := by
  have hvalid : t.valid now = true ↔
      (¬ t.accessToken = "" ∧ (t.expiry = 0 ∨ now + expiryDelta ≤ t.expiry)) := by
    unfold Token.valid Token.isExpired expiryDelta
    by_cases h0 : t.expiry = 0
    · simp [h0]
    · simp only [h0, if_false, ite_false]
      simp [h0]
      intro _
      omega
  refine ⟨hvalid, ?_⟩
  have hguard : (!cfg && !ld) = false := by
    rcases hc with h | h <;> simp [h]
  unfold getToken
  rw [hguard]
  simp only [Bool.false_eq_true, if_false]
  cases hv : t.valid now
  · simp only [Bool.false_eq_true, if_false]
    constructor
    · intro h
      exfalso
      rcases hr : refresh c t with _ | t2 <;> rw [hr] at h
      · rcases ha : authFlow c with _ | t3 <;> rw [ha] at h <;> simp at h
      · simp at h
    · intro h
      cases h
  · simp

/-- C1 (witness): the amended statement at a concrete token and time. -/
theorem token_cache_validity_witness :
    ((true : Bool) = true ∨ (true : Bool) = true) ∧
    (getToken true true (some ⟨"tok", "r", "Bearer", 1000⟩) 0 false
        (fun _ _ => none) (fun _ => none) = .cached ⟨"tok", "r", "Bearer", 1000⟩ ↔
      Token.valid ⟨"tok", "r", "Bearer", 1000⟩ 0 = true) :=
  ⟨Or.inl rfl,
    (token_cache_validity ⟨"tok", "r", "Bearer", 1000⟩ 0 true true false
      (fun _ _ => none) (fun _ => none) (Or.inl rfl)).2⟩

/-- C2 (counterexample): two runs of the interactive flow — on
different callback ports — use the identical state value, and that
value is the fixed literal `"state-token"`; the states are not
distinct. -/
theorem authenticate_state_counterexample :
    (authenticateRun 8080).state = (authenticateRun 9090).state ∧
    (authenticateRun 8080).state = "state-token" :=
  ⟨rfl, rfl⟩

/-- C2 (amended): every run of the interactive flow passes the fixed
literal `"state-token"` as the OAuth2 state — the flow consumes no
randomness — so any two runs produce equal state values. -/
theorem authenticate_state_fixed (p q : Nat) :
    (authenticateRun p).state = "state-token" ∧
    (authenticateRun p).state = (authenticateRun q).state :=
  ⟨rfl, rfl⟩

/-- C10: when the stored token is valid, `getToken` returns it from the
cache for EVERY context state and every behavior of the refresh and
interactive-flow oracles — the cached path checks no context and makes
no network call, so cancellation can only affect the other paths. -/
theorem getToken_cached_ignores_context (t : Token) (now : Int) (cfg ld : Bool)
    (hc : cfg = true ∨ ld = true) (hv : t.valid now = true) (c : Bool)
    (refresh : Bool → Token → Option Token) (authFlow : Bool → Option Token) :
    getToken cfg ld (some t) now c refresh authFlow = .cached t := by
  have hguard : (!cfg && !ld) = false := by
    rcases hc with h | h <;> simp [h]
  unfold getToken
  rw [hguard]
  simp [hv]

/-- C10 (witness): a valid cached token is returned even under an
already-cancelled context. -/
theorem getToken_cached_ignores_context_witness :
    ((true : Bool) = true ∨ (true : Bool) = true) ∧
    Token.valid ⟨"tok", "r", "Bearer", 1000⟩ 0 = true ∧
    getToken true true (some ⟨"tok", "r", "Bearer", 1000⟩) 0 true
      (fun _ _ => none) (fun _ => none) = .cached ⟨"tok", "r", "Bearer", 1000⟩ :=
  ⟨Or.inl rfl, by decide,
    getToken_cached_ignores_context ⟨"tok", "r", "Bearer", 1000⟩ 0 true true
      (Or.inl rfl) (by decide) true (fun _ _ => none) (fun _ => none)⟩

/-- C5 (counterexample): a request whose `code` parameter is present
with the empty value is routed to the error path — the default message
is delivered on the error channel with status 400 — not, as the claim
states for every present `code=X`, to the success channel with 200. -/
theorem callback_emptyCode_counterexample :
    handleCallback ⟨some "", none⟩ =
      ⟨.err "no authorization code received", 400, "text/plain; charset=utf-8"⟩ ∧
    ¬ (handleCallback ⟨some "", none⟩).delivered = .code "" ∧
    ¬ (handleCallback ⟨some "", none⟩).status = 200 :=
  ⟨rfl, by decide, by decide⟩

/-- C5 (amended): the handler reads parameters through a lookup that
returns `""` for an absent parameter, so "present" must be read as
"present with a non-empty value": a non-empty `code` is delivered on
the success channel with 200/HTML; with `code` absent or empty and
`error` absent or empty the literal default message goes to the error
channel with 400; with `code` absent or empty and `error` non-empty,
exactly that error value goes to the error channel with 400. -/
theorem callback_behavior (r : CallbackRequest) :
    (¬ queryGet r.code = "" →
      handleCallback r = ⟨.code (queryGet r.code), 200, "text/html"⟩) ∧
    (queryGet r.code = "" → queryGet r.error = "" →
      handleCallback r =
        ⟨.err "no authorization code received", 400, "text/plain; charset=utf-8"⟩) ∧
    (queryGet r.code = "" → ¬ queryGet r.error = "" →
      handleCallback r = ⟨.err (queryGet r.error), 400, "text/plain; charset=utf-8"⟩) := by
  refine ⟨fun h => ?_, fun h h2 => ?_, fun h h2 => ?_⟩ <;>
    simp [handleCallback, h, *]

/-- C5 (witness): the amended statement at the three request shapes. -/
theorem callback_behavior_witness :
    handleCallback ⟨some "abc", some "oops"⟩ = ⟨.code "abc", 200, "text/html"⟩ ∧
    handleCallback ⟨none, none⟩ =
      ⟨.err "no authorization code received", 400, "text/plain; charset=utf-8"⟩ ∧
    handleCallback ⟨none, some "access_denied"⟩ =
      ⟨.err "access_denied", 400, "text/plain; charset=utf-8"⟩ :=
  ⟨(callback_behavior ⟨some "abc", some "oops"⟩).1 (by decide),
   (callback_behavior ⟨none, none⟩).2.1 rfl rfl,
   (callback_behavior ⟨none, some "access_denied"⟩).2.2 rfl (by decide)⟩

/-- C3: `CreateEvent` rejects an empty title, a zero start time, or a
non-positive duration before any network call, with the field-specific
`invalid event time` message of the first failing check; every request
that passes validation is submitted with `end = start + duration`. -/
theorem createEvent_validation (p : EventParams) :
    (p.title = "" →
      createEventRequest p = .validationError
        ⟨.invalidEventTime, "invalid event time: title is required"⟩) ∧
    (¬ p.title = "" → p.startTime = 0 →
      createEventRequest p = .validationError
        ⟨.invalidEventTime, "invalid event time: start time is required"⟩) ∧
    (¬ p.title = "" → ¬ p.startTime = 0 → p.duration ≤ 0 →
      createEventRequest p = .validationError
        ⟨.invalidEventTime, "invalid event time: duration must be positive"⟩) ∧
    (¬ p.title = "" → ¬ p.startTime = 0 → 0 < p.duration →
      createEventRequest p = .submit
        ⟨p.title, p.description, p.location, p.startTime, p.startTime + p.duration⟩) := by
  refine ⟨fun h1 => ?_, fun h1 h2 => ?_, fun h1 h2 h3 => ?_, fun h1 h2 h3 => ?_⟩
  · simp [createEventRequest, validateEventParams, h1]
  · simp [createEventRequest, validateEventParams, h1, h2]
  · simp [createEventRequest, validateEventParams, h1, h2, h3]
  · have h4 : ¬ (p.duration ≤ 0) := by omega
    simp [createEventRequest, validateEventParams, h1, h2, h4]

/-- C3 (witness): the four branches at concrete requests. -/
theorem createEvent_validation_witness :
    createEventRequest ⟨"", 5, 60, "", ""⟩ = .validationError
      ⟨.invalidEventTime, "invalid event time: title is required"⟩ ∧
    createEventRequest ⟨"t", 0, 60, "", ""⟩ = .validationError
      ⟨.invalidEventTime, "invalid event time: start time is required"⟩ ∧
    createEventRequest ⟨"t", 5, 0, "", ""⟩ = .validationError
      ⟨.invalidEventTime, "invalid event time: duration must be positive"⟩ ∧
    createEventRequest ⟨"t", 5, 60, "d", "l"⟩ = .submit ⟨"t", "d", "l", 5, 65⟩ :=
  ⟨(createEvent_validation ⟨"", 5, 60, "", ""⟩).1 rfl,
   (createEvent_validation ⟨"t", 0, 60, "", ""⟩).2.1 (by decide) rfl,
   (createEvent_validation ⟨"t", 5, 0, "", ""⟩).2.2.1 (by decide) (by decide) (by decide),
   (createEvent_validation ⟨"t", 5, 60, "d", "l"⟩).2.2.2 (by decide) (by decide) (by decide)⟩

/-- C4: the full status-keyed mapping of `wrapAPIError`: 400 to
`EventCreationFailed` including the provider message, 401 to
`PermissionDenied`, 403 to `QuotaExceeded` exactly when
`containsQuotaError` finds a quota/rate-limit reason and otherwise to
`PermissionDenied`, 404 to `CalendarNotFound`, 429 to `QuotaExceeded`,
every other status to `EventCreationFailed` carrying the status code,
and every transport-level error to `EventCreationFailed` carrying the
underlying message. -/
theorem wrapAPIError_mapping (msg : String) (errs : List SubError)
    (e : GoogleAPIError) :
    wrapAPIError (.api ⟨400, msg, errs⟩) =
      ⟨.eventCreationFailed, "failed to create event: invalid request - " ++ msg⟩ ∧
    wrapAPIError (.api ⟨401, msg, errs⟩) =
      ⟨.permissionDenied,
        "permission denied: authentication expired, please re-authenticate"⟩ ∧
    (e.code = 403 → containsQuotaError e = true →
      wrapAPIError (.api e) =
        ⟨.quotaExceeded, "API quota exceeded: please try again later"⟩) ∧
    (e.code = 403 → containsQuotaError e = false →
      wrapAPIError (.api e) =
        ⟨.permissionDenied,
          "permission denied: you don\x27t have permission to access this calendar"⟩) ∧
    wrapAPIError (.api ⟨404, msg, errs⟩) =
      ⟨.calendarNotFound, "calendar not found: check that the calendar ID is correct"⟩ ∧
    wrapAPIError (.api ⟨429, msg, errs⟩) =
      ⟨.quotaExceeded, "API quota exceeded: too many requests, please try again later"⟩ ∧
    (¬ e.code = 400 → ¬ e.code = 401 → ¬ e.code = 403 → ¬ e.code = 404 →
      ¬ e.code = 429 →
      wrapAPIError (.api e) =
        ⟨.eventCreationFailed,
          "failed to create event: " ++ e.message ++ " (code: " ++ toString e.code ++ ")"⟩) ∧
    wrapAPIError (.transport msg) =
      ⟨.eventCreationFailed, "failed to create event: " ++ msg⟩ := by
  refine ⟨by norm_num [wrapAPIError], by norm_num [wrapAPIError],
    fun h hq => ?_, fun h hq => ?_, by norm_num [wrapAPIError],
    by norm_num [wrapAPIError], fun h1 h2 h3 h4 h5 => ?_,
    by norm_num [wrapAPIError]⟩ <;>
    simp [wrapAPIError, *]

/-- C4 (witness): the conditional branches at concrete provider
errors (403 with and without a quota reason, and an unmapped 500). -/
theorem wrapAPIError_mapping_witness :
    wrapAPIError (.api ⟨403, "m", [⟨"rateLimitExceeded"⟩]⟩) =
      ⟨.quotaExceeded, "API quota exceeded: please try again later"⟩ ∧
    wrapAPIError (.api ⟨403, "m", [⟨"forbidden"⟩]⟩) =
      ⟨.permissionDenied,
        "permission denied: you don\x27t have permission to access this calendar"⟩ ∧
    wrapAPIError (.api ⟨500, "backend error", []⟩) =
      ⟨.eventCreationFailed, "failed to create event: backend error (code: 500)"⟩ :=
  ⟨(wrapAPIError_mapping "m" [] ⟨403, "m", [⟨"rateLimitExceeded"⟩]⟩).2.2.1 rfl (by decide),
   (wrapAPIError_mapping "m" [] ⟨403, "m", [⟨"forbidden"⟩]⟩).2.2.2.1 rfl (by decide),
   (wrapAPIError_mapping "m" [] ⟨500, "backend error", []⟩).2.2.2.2.2.2.1
     (by decide) (by decide) (by decide) (by decide) (by decide)⟩

/-- C6: strict three-stage priority of `getLocation` — a non-empty
explicit timezone is resolved or fails with `InvalidTimezone` without
ever consulting `TZ` (the result is independent of the `TZ` value);
otherwise a set `TZ` value is resolved or fails with `InvalidTimezone`;
otherwise the system local timezone is returned and the call never
fails. -/
theorem getLocation_priority (loadLocation : String → Option Location)
    (tzEnv : String) (localZone : Location) (timezone : String) :
    (¬ timezone = "" →
      (∀ loc, loadLocation timezone = some loc →
        getLocation loadLocation tzEnv localZone timezone = .ok loc) ∧
      (loadLocation timezone = none →
        getLocation loadLocation tzEnv localZone timezone =
          .error (.invalidTimezone ("invalid timezone: " ++ timezone))) ∧
      (∀ tz2, getLocation loadLocation tzEnv localZone timezone =
        getLocation loadLocation tz2 localZone timezone)) ∧
    (timezone = "" → ¬ tzEnv = "" →
      (∀ loc, loadLocation tzEnv = some loc →
        getLocation loadLocation tzEnv localZone timezone = .ok loc) ∧
      (loadLocation tzEnv = none →
        getLocation loadLocation tzEnv localZone timezone =
          .error (.invalidTimezone
            ("invalid timezone: " ++ tzEnv ++ " (from TZ environment variable)")))) ∧
    (timezone = "" → tzEnv = "" →
      getLocation loadLocation tzEnv localZone timezone = .ok localZone) := by
  refine ⟨fun h => ⟨fun loc hl => ?_, fun hl => ?_, fun tz2 => ?_⟩,
    fun h h2 => ⟨fun loc hl => ?_, fun hl => ?_⟩, fun h h2 => ?_⟩ <;>
    simp [getLocation, h, *]

/-- C6 (witness): the three stages at a concrete recognizer that knows
only the zone `UTC`. -/
theorem getLocation_priority_witness :
    getLocation (fun s => if s == "UTC" then some ⟨"UTC"⟩ else none)
      "Mars/Olympus" ⟨"Local"⟩ "UTC" = .ok ⟨"UTC"⟩ ∧
    getLocation (fun s => if s == "UTC" then some ⟨"UTC"⟩ else none)
      "UTC" ⟨"Local"⟩ "" = .ok ⟨"UTC"⟩ ∧
    getLocation (fun s => if s == "UTC" then some ⟨"UTC"⟩ else none)
      "" ⟨"Local"⟩ "" = .ok ⟨"Local"⟩ :=
  ⟨((getLocation_priority (fun s => if s == "UTC" then some ⟨"UTC"⟩ else none)
      "Mars/Olympus" ⟨"Local"⟩ "UTC").1 (by decide)).1 ⟨"UTC"⟩ rfl,
   ((getLocation_priority (fun s => if s == "UTC" then some ⟨"UTC"⟩ else none)
      "UTC" ⟨"Local"⟩ "").2.1 rfl (by decide)).1 ⟨"UTC"⟩ rfl,
   (getLocation_priority (fun s => if s == "UTC" then some ⟨"UTC"⟩ else none)
      "" ⟨"Local"⟩ "").2.2 rfl rfl⟩

/-- C7: `ParseTime` tries the stages in order — relative forms, then
time-only, then the general/templated stage — and the first stage that
matches determines the result: a relative match is returned as is, the
time-only stage is consulted only when the relative stage fails, and
the general stage decides the outcome exactly when both pattern stages
fail. -/
theorem parseTime_first_match_wins {T : Type} (tm : Location → TimeModel T)
    (dp : String → Location → Option T)
    (pil : String → String → Location → Option T)
    (load : String → Option Location) (tzEnv : String) (localZone : Location)
    (input timezone : String) (loc : Location)
    (hne : ¬ goTrimSpace input = "")
    (hloc : getLocation load tzEnv localZone timezone = .ok loc) :
    (∀ t, parseRelative (tm loc) (goTrimSpace input) = some t →
      ParseTime tm dp pil load tzEnv localZone input timezone = .ok t) ∧
    (parseRelative (tm loc) (goTrimSpace input) = none →
      ∀ t, parseTimeOnly (tm loc) (goTrimSpace input) = some t →
        ParseTime tm dp pil load tzEnv localZone input timezone = .ok t) ∧
    (parseRelative (tm loc) (goTrimSpace input) = none →
      parseTimeOnly (tm loc) (goTrimSpace input) = none →
        ParseTime tm dp pil load tzEnv localZone input timezone =
          parseStandard dp pil (goTrimSpace input) loc) ∧
    (∀ (u : String) (t : T), strStarts (goToLower u) "in " = true →
      parseInDuration (tm loc) (goToLower u) = some t →
      parseRelative (tm loc) u = some t) ∧
    (∀ (u : String) (t : T),
      (strStarts (goToLower u) "in " = false ∨
        parseInDuration (tm loc) (goToLower u) = none) →
      strStarts (goToLower u) "today" = true →
      parseDayWithTime (tm loc) (goToLower u) 0 = some t →
      parseRelative (tm loc) u = some t) ∧
    (∀ (u : String) (t : T),
      (strStarts (goToLower u) "in " = false ∨
        parseInDuration (tm loc) (goToLower u) = none) →
      (strStarts (goToLower u) "today" = false ∨
        parseDayWithTime (tm loc) (goToLower u) 0 = none) →
      strStarts (goToLower u) "tomorrow" = true →
      parseDayWithTime (tm loc) (goToLower u) 1 = some t →
      parseRelative (tm loc) u = some t) := by
  have hne' : (goTrimSpace input == "") = false := by
    simp only [beq_eq_false_iff_ne, ne_eq]
    exact hne
  refine ⟨fun t hrel => ?_, fun hrel t hto => ?_, fun hrel hto => ?_,
    fun u t hin hdur => ?_, fun u t hin hday hparse => ?_,
    fun u t hin hday htmw hparse => ?_⟩
  · simp only [ParseTime, hne', Bool.false_eq_true, if_false, hloc, hrel]
  · simp only [ParseTime, hne', Bool.false_eq_true, if_false, hloc, hrel, hto]
  · simp only [ParseTime, hne', Bool.false_eq_true, if_false, hloc, hrel, hto]
  · simp only [parseRelative, hin, if_true, hdur]
  · rcases hin with hin | hin <;>
      simp only [parseRelative, hin, Bool.false_eq_true, if_false, if_true,
        ite_self, hday, hparse]
  · rcases hin with hin | hin <;> rcases hday with hday | hday <;>
      simp only [parseRelative, hin, hday, htmw, Bool.false_eq_true, if_false,
        if_true, ite_self, hparse]

/-- C7 (witness): with a clock model over `Int`, the relative stage
decides `in 2 hours`. -/
theorem parseTime_first_match_wins_witness :
    ¬ goTrimSpace "in 2 hours" = "" ∧
    getLocation wLoad "" ⟨"Local"⟩ "UTC" = .ok ⟨"UTC"⟩ ∧
    ParseTime (fun _ => wClock) wNoParse wNoLayout wLoad "" ⟨"Local"⟩
      "in 2 hours" "UTC" = .ok 7200 := by
  refine ⟨by decide, rfl, ?_⟩
  exact (parseTime_first_match_wins (fun _ => wClock) wNoParse wNoLayout wLoad
    "" ⟨"Local"⟩ "in 2 hours" "UTC" ⟨"UTC"⟩ (by decide) rfl).1 7200 rfl

/-- C8: empty or whitespace-only input makes `ParseTime` fail
immediately with `InvalidFormat`; `25:00` and `14:60` are rejected by
the relative and time-only stages (for every clock model), fall through
to the general stage, and — the general stage rejecting them too — the
overall result is the `InvalidFormat` error whose message carries the
original input. -/
theorem parseTime_invalid_format {T : Type} (tm : Location → TimeModel T)
    (dp : String → Location → Option T)
    (pil : String → String → Location → Option T)
    (load : String → Option Location) (tzEnv : String) (localZone : Location) :
    (∀ input timezone, goTrimSpace input = "" →
      ParseTime tm dp pil load tzEnv localZone input timezone =
        .error (.invalidFormat "invalid date/time format: empty input")) ∧
    (∀ tmm : TimeModel T,
      parseRelative tmm "25:00" = none ∧ parseTimeOnly tmm "25:00" = none ∧
      parseRelative tmm "14:60" = none ∧ parseTimeOnly tmm "14:60" = none) ∧
    (∀ timezone loc, getLocation load tzEnv localZone timezone = .ok loc →
      dp "25:00" loc = none →
      firstLayout pil standardLayouts "25:00" loc = none →
      ParseTime tm dp pil load tzEnv localZone "25:00" timezone =
        .error (.invalidFormat (couldNotParseMsg "25:00"))) ∧
    (∀ timezone loc, getLocation load tzEnv localZone timezone = .ok loc →
      dp "14:60" loc = none →
      firstLayout pil standardLayouts "14:60" loc = none →
      ParseTime tm dp pil load tzEnv localZone "14:60" timezone =
        .error (.invalidFormat (couldNotParseMsg "14:60"))) := by
  refine ⟨fun input timezone h => ?_, fun tmm => ⟨rfl, rfl, rfl, rfl⟩,
    fun timezone loc hloc hdp hfl => ?_, fun timezone loc hloc hdp hfl => ?_⟩
  · simp [ParseTime, h]
  · have hr : parseRelative (tm loc) "25:00" = none := rfl
    have hto : parseTimeOnly (tm loc) "25:00" = none := rfl
    have htrim : goTrimSpace "25:00" = "25:00" := rfl
    simp only [ParseTime, htrim, hloc, hr, hto, parseStandard, hdp, hfl]
    rfl
  · have hr : parseRelative (tm loc) "14:60" = none := rfl
    have hto : parseTimeOnly (tm loc) "14:60" = none := rfl
    have htrim : goTrimSpace "14:60" = "14:60" := rfl
    simp only [ParseTime, htrim, hloc, hr, hto, parseStandard, hdp, hfl]
    rfl

/-- C8 (witness): the clauses evaluated at whitespace-only input and at
the out-of-range inputs with never-succeeding general-stage oracles. -/
theorem parseTime_invalid_format_witness :
    goTrimSpace "   " = "" ∧
    ParseTime (fun _ => wClock) wNoParse wNoLayout wLoad "" ⟨"Local"⟩ "   " "UTC" =
      .error (.invalidFormat "invalid date/time format: empty input") ∧
    getLocation wLoad "" ⟨"Local"⟩ "UTC" = .ok ⟨"UTC"⟩ ∧
    wNoParse "25:00" ⟨"UTC"⟩ = none ∧
    firstLayout wNoLayout standardLayouts "25:00" ⟨"UTC"⟩ = none ∧
    ParseTime (fun _ => wClock) wNoParse wNoLayout wLoad "" ⟨"Local"⟩ "25:00" "UTC" =
      .error (.invalidFormat (couldNotParseMsg "25:00")) ∧
    ParseTime (fun _ => wClock) wNoParse wNoLayout wLoad "" ⟨"Local"⟩ "14:60" "UTC" =
      .error (.invalidFormat (couldNotParseMsg "14:60")) := by
  refine ⟨rfl, ?_, rfl, rfl, rfl, ?_, ?_⟩
  · exact (parseTime_invalid_format (fun _ => wClock) wNoParse wNoLayout wLoad
      "" ⟨"Local"⟩).1 "   " "UTC" rfl
  · exact (parseTime_invalid_format (fun _ => wClock) wNoParse wNoLayout wLoad
      "" ⟨"Local"⟩).2.2.1 "UTC" ⟨"UTC"⟩ rfl rfl rfl
  · exact (parseTime_invalid_format (fun _ => wClock) wNoParse wNoLayout wLoad
      "" ⟨"Local"⟩).2.2.2 "UTC" ⟨"UTC"⟩ rfl rfl rfl

/-- Dropping leading Go whitespace from an all-digit list is the
identity. -/
theorem dropWhile_goSpace_of_digits (l : List Char)
    (h : l.all Char.isDigit = true) : l.dropWhile isGoSpace = l := by
  cases l with
  | nil => rfl
  | cons c cs =>
    rw [List.all_cons, Bool.and_eq_true] at h
    have hcf : isGoSpace c = false := by
      cases hg : isGoSpace c
      · rfl
      · exfalso
        have hd := h.1
        simp only [isGoSpace, Bool.or_eq_true, beq_iff_eq] at hg
        rcases hg with ((((((h1 | h1) | h1) | h1) | h1) | h1) | h1) | h1 <;>
          subst h1 <;> exact absurd hd (by decide)
    simp [List.dropWhile_cons, hcf]

/-- `strings.TrimSpace` is the identity on all-digit strings. -/
theorem goTrimSpace_digits (s : String) (h : s.data.all Char.isDigit = true) :
    goTrimSpace s = s := by
  unfold goTrimSpace
  rw [dropWhile_goSpace_of_digits _ h,
    dropWhile_goSpace_of_digits _ (by rw [List.all_reverse]; exact h),
    List.reverse_reverse]

/-- `strconv.Atoi` on a non-empty all-digit string in 64-bit range
returns its decimal value. -/
theorem goAtoi_digits (s : String) (h1 : ¬ s.data = [])
    (h2 : s.data.all Char.isDigit = true)
    (h3 : (digitsVal s.data : Int) ≤ 2 ^ 63 - 1) :
    goAtoi s = some ((digitsVal s.data : Nat) : Int) := by
  obtain ⟨c, cs, hcs⟩ : ∃ c cs, s.data = c :: cs := by
    cases hd : s.data with
    | nil => exact absurd hd h1
    | cons c cs => exact ⟨c, cs, rfl⟩
  have hall := h2
  rw [hcs, List.all_cons, Bool.and_eq_true] at hall
  have hm : (c == '-') = false := beq_eq_false_of_digit hall.1 (by decide)
  have hp : (c == '+') = false := beq_eq_false_of_digit hall.1 (by decide)
  have hpow : ((2 : Int) ^ 63) = 9223372036854775808 := by norm_num
  have hv0 : (0 : Int) ≤ (digitsVal (c :: cs) : Int) := Int.ofNat_nonneg _
  have hc1 : ¬ ((digitsVal (c :: cs) : Int) < -(2 ^ 63)) := by
    rw [hpow]; omega
  have hc2 : ¬ ((2 : Int) ^ 63 - 1 < (digitsVal (c :: cs) : Int)) := by
    rw [hcs] at h3; rw [hpow] at h3 ⊢; omega
  unfold goAtoi
  rw [hcs]
  have h2' : (c :: cs).all Char.isDigit = true := by
    rw [List.all_cons, Bool.and_eq_true]; exact hall
  rw [hpow] at hc1 hc2
  simp [hm, hp, h2', hc1, hc2]
  omega

/-- Values already inside the signed 64-bit range are fixed points of
the wrap-around. -/
theorem wrapInt64_eq_self (x : Int) (h1 : -(2 ^ 63) ≤ x)
    (h2 : x ≤ 2 ^ 63 - 1) : wrapInt64 x = x := by
  have p63 : ((2 : Int) ^ 63) = 9223372036854775808 := by norm_num
  have p64 : ((2 : Int) ^ 64) = 18446744073709551616 := by norm_num
  unfold wrapInt64
  rw [p63] at h1 h2 ⊢
  rw [p64]
  rw [Int.emod_eq_of_lt (by omega) (by omega)]
  omega

/-- C9 (counterexample): the bare integer string `153722868` passes
`strconv.Atoi` (it fits int64), but
`time.Duration(153722868) * time.Minute` overflows int64 and wraps:
`ParseDuration` returns the NEGATIVE span -9223371993709551616 ns with
no error, not a span of 153722868 minutes, so the round-trip fails. -/
theorem parseDuration_overflow_counterexample :
    ParseDuration "153722868" = .ok (-9223371993709551616) ∧
    ¬ ((-9223371993709551616 : Int) = 153722868 * 60000000000) ∧
    (-9223371993709551616 : Int) < 0 := by
  refine ⟨rfl, by decide, by decide⟩

/-- C9 (amended): a bare non-negative integer string whose minute count
times one minute still fits int64 (count at most 153722867) is parsed
by `ParseDuration` as exactly that many minutes; dividing back by a
minute recovers the count, and in particular `30` and `30m` both yield
1800 seconds (1800000000000 ns).  Beyond that bound the int64 product
wraps (see the counterexample). -/
theorem parseDuration_minutes (s : String) (h1 : ¬ s.data = [])
    (h2 : s.data.all Char.isDigit = true)
    (h3 : (digitsVal s.data : Int) * 60000000000 ≤ 2 ^ 63 - 1) :
    ParseDuration s = .ok ((digitsVal s.data : Int) * 60000000000) ∧
    ((digitsVal s.data : Int) * 60000000000) / 60000000000 =
      (digitsVal s.data : Int) ∧
    ParseDuration "30" = .ok 1800000000000 ∧
    ParseDuration "30m" = .ok 1800000000000 := by
  have hv0 : (0 : Int) ≤ (digitsVal s.data : Int) := Int.ofNat_nonneg _
  have hle : (digitsVal s.data : Int) ≤ (digitsVal s.data : Int) * 60000000000 :=
    le_mul_of_one_le_right hv0 (by norm_num)
  have h3' : (digitsVal s.data : Int) ≤ 2 ^ 63 - 1 := le_trans hle h3
  refine ⟨?_, Int.mul_ediv_cancel _ (by norm_num), rfl, rfl⟩
  unfold ParseDuration
  rw [goTrimSpace_digits s h2]
  have hne : (s == "") = false := by
    rw [beq_eq_false_iff_ne]
    intro he
    subst he
    exact h1 rfl
  simp only [hne, Bool.false_eq_true, if_false]
  rw [goAtoi_digits s h1 h2 h3']
  exact congrArg Except.ok (wrapInt64_eq_self _
    (le_trans (by norm_num : -((2 : Int) ^ 63) ≤ 0)
      (mul_nonneg hv0 (by norm_num))) h3)

/-- C9 (witness): the amended statement at the concrete input `45`. -/
theorem parseDuration_minutes_witness :
    ¬ ("45".data = []) ∧ "45".data.all Char.isDigit = true ∧
    (digitsVal "45".data : Int) * 60000000000 ≤ 2 ^ 63 - 1 ∧
    ParseDuration "45" = .ok 2700000000000 :=
  ⟨by decide, by decide, by decide,
    (parseDuration_minutes "45" (by decide) (by decide) (by decide)).1⟩

end Calgo
